import Mathlib

/-!
Verification of the GPS Vehicle Tracker firmware (`main.py`).

The development shallowly embeds the pieces of `main.py` that the
specification talks about:

* the Python substring test `needle in hay` (`pyIn` below, over `String`);
* the state of the external NMEA decoder (`MicropyGPS`), modelled as an
  abstract record of the fields `main.py` reads (`GpsState`): the decoder
  itself is an external collaborator, so its fields range over arbitrary
  values;
* the helper functions `has_valid_gps_data`, `get_current_location_string`,
  `send_at_command` (its response-collection loop), `check_gsm_module`
  and `send_sms` (its prompt and confirmation loops, and its write trace);
* one tick of the main `while True:` loop (`tick`), as a function from the
  system state (the module-level flags and timing anchors) and a tick
  environment (decoder state after ingest, the `AT+CREG?` response, any
  inbound modem bytes, any completed console command) to the new state,
  the list of `send_sms` calls made during the tick, and whether the
  registration query was issued.

Timing: the code polls in fixed sleep steps (50/100 ms) under millisecond
bounds compared with `time.ticks_diff`.  Polling loops are modelled with a
fuel parameter (one unit per sleep step: 100 iterations for the 5 s prompt
wait at 50 ms, 100 for the 10 s confirmation wait at 100 ms, 20 for the
2 s `AT` wait at 100 ms) and the byte channel as a list of `Option String`
chunks, one entry per poll step (`none` = `uart.any()` is false).  Tick
timestamps are modelled as integers with ordinary subtraction
(`ticks_diff` wraparound is out of scope for the claims considered).
Floating point latitude/longitude values are modelled as rationals; the
decimal renderings the runtime produces for them are carried as abstract
string fields of the decoder state.
-/

/-- Predicate `leadMatch n h` : the char list `n` matches the front of `h`
(the primitive underlying the Python substring test). -/
def leadMatch : List Char → List Char → Bool
  | [], _ => true
  | _ :: _, [] => false
  | a :: as, b :: bs => a == b && leadMatch as bs

/-- Predicate `hasSub n h` : `n` occurs contiguously inside `h`
(the Python `n in h` on strings, over char lists). -/
def hasSub (n : List Char) : List Char → Bool
  | [] => leadMatch n []
  | c :: t => leadMatch n (c :: t) || hasSub n t

/-- The Python `needle in hay` test on strings. -/
def pyIn (needle hay : String) : Bool :=
  hasSub needle.data hay.data

/-- The Python `s.lower()` (modelled with `Char.toLower`). -/
def strLower (s : String) : String :=
  ⟨s.data.map Char.toLower⟩

theorem leadMatch_append (n : List Char) :
    ∀ h t, leadMatch n h = true → leadMatch n (h ++ t) = true := by
  induction n with
  | nil => intro h t _; rfl
  | cons a as ih =>
    intro h t hm
    cases h with
    | nil => simp [leadMatch] at hm
    | cons b bs =>
      simp only [leadMatch, Bool.and_eq_true] at hm ⊢
      exact ⟨hm.1, ih bs t hm.2⟩

theorem hasSub_append (n : List Char) :
    ∀ h t, hasSub n h = true → hasSub n (h ++ t) = true := by
  intro h
  induction h with
  | nil =>
    intro t hm
    simp only [hasSub] at hm
    cases n with
    | nil =>
      cases t with
      | nil => rfl
      | cons c cs => simp [hasSub, leadMatch]
    | cons a as => simp [leadMatch] at hm
  | cons c cs ih =>
    intro t hm
    simp only [hasSub, Bool.or_eq_true] at hm
    rcases hm with hm | hm
    · simp only [List.cons_append, hasSub, Bool.or_eq_true]
      exact Or.inl (leadMatch_append n _ t hm)
    · simp only [List.cons_append, hasSub, Bool.or_eq_true]
      exact Or.inr (ih t hm)

theorem strData_append (a b : String) : (a ++ b).data = a.data ++ b.data := by
  cases a; cases b; rfl

/-- Substring containment is stable under appending more text on the right
(the accumulated responses in `main.py` only ever grow). -/
theorem pyIn_append (needle h t : String) :
    pyIn needle h = true → pyIn needle (h ++ t) = true := by
  intro hm
  unfold pyIn at hm ⊢
  rw [strData_append]
  exact hasSub_append _ _ _ hm

/-!  ## GPS decoder state and the GPS helpers of `main.py` -/

/-- State of the external `MicropyGPS` decoder, restricted to the fields
`main.py` reads.  `fix_type` is 1 = no fix, 2 = 2D, 3 = 3D.  `lat`/`lon`
model `gps_parser.latitude[0]` / `longitude[0]` (decimal degrees, `none` =
Python `None`).  `latStr`/`lonStr` are the decoder
`latitude_string()`/`longitude_string()` renderings and `latRepr`/`lonRepr`
the decimal renderings the f-string produces for `lat`/`lon`; all four are
abstract decoder-supplied text.  `day`/`month`/`yearYY` model
`gps_parser.date`, `hour`/`minute`/`second` model `gps_parser.timestamp`
(`hour = none` models `timestamp[0] is None`; `second` is truncated as by
`int(ts[2])`). -/
structure GpsState where
  fix_type : Nat
  lat : Option ℚ
  lon : Option ℚ
  latStr : String
  lonStr : String
  latRepr : String
  lonRepr : String
  day : Nat
  month : Nat
  yearYY : Nat
  hour : Option Nat
  minute : Nat
  second : Nat
  deriving DecidableEq

/-- Function `has_valid_gps_data` from `main.py`: latitude and longitude are both
non-`None` and non-zero.  (Note: the function does not consult
`fix_type`.) -/
def has_valid_gps_data (g : GpsState) : Bool :=
  match g.lat, g.lon with
  | some la, some lo => la != 0 && lo != 0
  | _, _ => false

/-- The `\x7bn:02d\x7d` formatting used in the timestamp f-string. -/
def pad2 (n : Nat) : String :=
  if n < 10 then "0" ++ toString n else toString n

/-- The `timestamp_str` computed inside `get_current_location_string`:
formatted when `dt[0]` is truthy and `ts[0] is not None`, else `N/A`. -/
def timestampStr (g : GpsState) : String :=
  match g.hour with
  | some hh =>
    if g.day ≠ 0 then
      "\nTime: " ++ pad2 g.day ++ "/" ++ pad2 g.month ++ "/20" ++
        pad2 g.yearYY ++ " " ++ pad2 hh ++ ":" ++ pad2 g.minute ++ ":" ++
        pad2 g.second
    else "\nTime: N/A"
  | none => "\nTime: N/A"

/-- Function `get_current_location_string` from `main.py`. -/
def get_current_location_string (g : GpsState) : String :=
  if has_valid_gps_data g then
    "Location: " ++ g.latStr ++ ", " ++ g.lonStr ++ timestampStr g ++
      "\nMap: http://maps.google.com/maps?q=" ++ g.latRepr ++ "," ++ g.lonRepr
  else
    "GPS signal not available. Please wait."

/-!  ## AT transport and modem driver -/

/-- The response-collection loop of `send_at_command`: poll every 100 ms up
to the wait bound (`fuel` poll steps); on the first arriving chunk, sleep
the settle delay, perform exactly one more read (the next stream slot, if a
chunk is pending there), and return the concatenation; if no chunk ever
arrives, return `""`. -/
def send_at_command : Nat → List (Option String) → String
  | 0, _ => ""
  | _, [] => ""
  | n + 1, none :: rest => send_at_command n rest
  | _ + 1, some c :: rest =>
    c ++ (match rest with
          | some c2 :: _ => c2
          | _ => "")

/-- Function `check_gsm_module` from `main.py`: send `AT` with a 2 s bound
(20 poll steps) and succeed iff the response contains `OK`. -/
def check_gsm_module (stream : List (Option String)) : Bool :=
  pyIn "OK" (send_at_command 20 stream)

/-- Outcome of the `AT+CREG?` handling in the main loop. -/
inductive RegResult
  | registered
  | unregistered
  | unknown
  deriving DecidableEq, BEq

/-- The classification the main loop applies to the `AT+CREG?` response:
contains "+CREG: 0,1" or contains "+CREG: 0,5" → registered;
elif contains "+CREG:" → not registered yet (retry); otherwise the
response is unrecognized and nothing is concluded. -/
def classifyCreg (response : String) : RegResult :=
  if pyIn "+CREG: 0,1" response || pyIn "+CREG: 0,5" response then
    .registered
  else if pyIn "+CREG:" response then
    .unregistered
  else
    .unknown

/-- A write to the GSM serial channel made by `send_sms`. -/
inductive ModemWrite
  | cmd (s : String)
  | msgBody (s : String)
  | ctrlZ
  | esc
  deriving DecidableEq, BEq

/-- The prompt-wait loop of `send_sms`: poll every 50 ms under the 5 s
bound (`fuel` steps), appending each arriving chunk to the accumulated
response; return `true` as soon as the character > occurs in the accumulation. -/
def promptLoop : Nat → String → List (Option String) → Bool
  | 0, _, _ => false
  | _ + 1, _, [] => false
  | n + 1, acc, none :: rest => promptLoop n acc rest
  | n + 1, acc, some c :: rest =>
    if pyIn ">" (acc ++ c) then true else promptLoop n (acc ++ c) rest

/-- Outcome of the confirmation-wait phase of `send_sms`. -/
inductive ConfResult
  | sent
  | rejected
  | timedOut
  deriving DecidableEq, BEq

/-- The confirmation-wait loop of `send_sms`, returning the outcome and
the accumulated confirmation text at the moment of decision: poll every
100 ms under the 10 s bound (`fuel` steps); after each arriving chunk,
success (confirmation contains "+CMGS:" or contains "OK") is checked
before the error marker (confirmation contains "ERROR"); if the bound elapses
with neither, the send times out. -/
def confLoopT : Nat → String → List (Option String) → ConfResult × String
  | 0, acc, _ => (.timedOut, acc)
  | _ + 1, acc, [] => (.timedOut, acc)
  | n + 1, acc, none :: rest => confLoopT n acc rest
  | n + 1, acc, some c :: rest =>
    let acc2 := acc ++ c
    if pyIn "+CMGS:" acc2 || pyIn "OK" acc2 then (.sent, acc2)
    else if pyIn "ERROR" acc2 then (.rejected, acc2)
    else confLoopT n acc2 rest

/-- Result of a `send_sms` call: the returned boolean and the trace of
writes made to the GSM serial channel. -/
structure SmsRun where
  result : Bool
  writes : List ModemWrite
  deriving DecidableEq

/-- Function `send_sms` from `main.py`.  Argument `connected` is the module-level
`gsm_connected` flag; `promptStream`/`confStream` are the modem bytes
available during the prompt wait (100 × 50 ms slots) and the confirmation
wait (100 × 100 ms slots).  If not connected, the call returns `False`
having written nothing.  Otherwise it writes `AT+CMGF=1` (via
`send_at_command`) and the compose command, then waits for the >
prompt; on prompt timeout it writes the ESC (0x1B) cancel byte and returns
`False`; on prompt it writes the message body, then the Ctrl+Z (0x1A)
terminator, and returns `True` iff the confirmation phase succeeds. -/
def send_sms (connected : Bool) (number message : String)
    (promptStream confStream : List (Option String)) : SmsRun :=
  if !connected then
    { result := false, writes := [] }
  else
    let w0 : List ModemWrite :=
      [.cmd "AT+CMGF=1", .cmd ("AT+CMGS=\"" ++ number ++ "\"")]
    if promptLoop 100 "" promptStream then
      { result := (confLoopT 100 "" confStream).1 == .sent,
        writes := w0 ++ [.msgBody message, .ctrlZ] }
    else
      { result := false, writes := w0 ++ [.esc] }

/-!  ## The tracking control loop (`while True:` in `main.py`)

One tick is the loop body.  The per-tick inputs are: the decoder state
after step 1 has drained and ingested the pending GPS bytes (the decoder
is external, so this state is an environment input), the response
`send_at_command` would collect for the registration query if issued, the chunk that step 4
`gsm_uart.read()` would return (`none` when `gsm_uart.any()` is false),
and the completed, stripped, lowercased console command line, if one
arrived.  The outputs are the new module-level state, the list of
`send_sms` calls made during the tick (in program order, tagged by call
site), and whether the `AT+CREG?` query was issued. -/

/-- Constants of `main.py` (milliseconds, as integers). -/
def ADMIN_NUMBER : String := "+9186********"

def LOCATION_INTERVAL_MS : Int := 1 * 60 * 1000

def GSM_CHECK_INTERVAL_MS : Int := 10000

/-- The module-level mutable state of `main.py` that the loop reads and
writes. -/
structure SysState where
  gsm_connected : Bool
  gps_fix_acquired : Bool
  gsm_initialized : Bool
  last_location_sent_ms : Int
  last_gsm_check_ms : Int
  deriving DecidableEq

/-- Environment of one tick (see the section comment). -/
structure TickEnv where
  now : Int
  gps : GpsState
  creg : String
  inbound : Option String
  cmd : Option String
  deriving DecidableEq

/-- Call site of a `send_sms` call in the loop body. -/
inductive SmsKind
  | fixAcquired
  | online
  | periodic
  | reply
  | test
  deriving DecidableEq, BEq

/-- One `send_sms(number, message)` call made during a tick. -/
structure SmsCall where
  kind : SmsKind
  number : String
  message : String
  deriving DecidableEq

/-- Result of one tick. -/
structure TickOut where
  state : SysState
  sms : List SmsCall
  cregQueried : Bool
  deriving DecidableEq

/-- Fixed message texts sent by the loop. -/
def fixMsg : String := "GPS fix acquired. Vehicle tracking active."

def onlineMsg : String := "Vehicle Tracking System is online."

def testMsg : String := "Test message from Vehicle Tracker"

/-- Loop step 1 (after the GPS ingest): the fix-transition check.
`if not gps_fix_acquired and gps_parser.fix_type >= 2 and
has_valid_gps_data():` — latch the flag and, only if `gsm_connected`,
send the fix-acquired notification. -/
def step1 (s : SysState) (e : TickEnv) : SysState × List SmsCall :=
  if !s.gps_fix_acquired && decide (e.gps.fix_type ≥ 2) &&
      has_valid_gps_data e.gps then
    ({ s with gps_fix_acquired := true },
     if s.gsm_connected then
       [{ kind := .fixAcquired, number := ADMIN_NUMBER, message := fixMsg }]
     else [])
  else (s, [])

/-- Loop step 2: the GSM registration check.  Runs only while
`gsm_initialized and not gsm_connected` and the check interval has
elapsed; on a registered status the flag is set, the online notification
sent and `last_location_sent_ms` reset to now; in every case where the
query ran, `last_gsm_check_ms` is set to now.  The third component
records whether `AT+CREG?` was issued. -/
def step2 (s : SysState) (e : TickEnv) : SysState × List SmsCall × Bool :=
  if s.gsm_initialized && !s.gsm_connected &&
      decide (e.now - s.last_gsm_check_ms ≥ GSM_CHECK_INTERVAL_MS) then
    if classifyCreg e.creg == .registered then
      ({ s with gsm_connected := true,
                last_location_sent_ms := e.now,
                last_gsm_check_ms := e.now },
       [{ kind := .online, number := ADMIN_NUMBER, message := onlineMsg }],
       true)
    else
      ({ s with last_gsm_check_ms := e.now }, [], true)
  else (s, [], false)

/-- Loop step 3: interval location reporting.  The anchor is reset to now
on every attempted send; the `send_sms` return value is not consulted. -/
def step3 (s : SysState) (e : TickEnv) : SysState × List SmsCall :=
  if s.gsm_connected && s.gps_fix_acquired && has_valid_gps_data e.gps &&
      decide (e.now - s.last_location_sent_ms ≥ LOCATION_INTERVAL_MS) then
    ({ s with last_location_sent_ms := e.now },
     [{ kind := .periodic, number := ADMIN_NUMBER,
        message := get_current_location_string e.gps }])
  else (s, [])

/-- Loop step 4: incoming-SMS handling.  If bytes were read and contain
`+CMT:` and, lowercased, contain `location`, reply with the current
location string to the administrator number (the sender is never
extracted). -/
def step4 (e : TickEnv) : List SmsCall :=
  match e.inbound with
  | some r =>
    if pyIn "+CMT:" r then
      if pyIn "location" (strLower r) then
        [{ kind := .reply, number := ADMIN_NUMBER,
           message := get_current_location_string e.gps }]
      else []
    else []
  | none => []

/-- Loop step 5: console command dispatch (only `t` causes a send). -/
def step5 (e : TickEnv) : List SmsCall :=
  match e.cmd with
  | some c =>
    if c == "t" then
      [{ kind := .test, number := ADMIN_NUMBER, message := testMsg }]
    else []
  | none => []

/-- One tick of the main loop: steps 1–5 in program order. -/
def tick (s : SysState) (e : TickEnv) : TickOut :=
  let p1 := step1 s e
  let p2 := step2 p1.1 e
  let p3 := step3 p2.1 e
  { state := p3.1,
    sms := p1.2 ++ p2.2.1 ++ p3.2 ++ step4 e ++ step5 e,
    cregQueried := p2.2.2 }

/-- Concrete decoder states used in concrete runs: coordinates present and
non-zero, fix type as given, no date/time. -/
def gpsExample (ft : Nat) : GpsState :=
  { fix_type := ft, lat := some 28, lon := some 77,
    latStr := "28.00000° N", lonStr := "77.00000° E",
    latRepr := "28.0", lonRepr := "77.0",
    day := 0, month := 0, yearYY := 0, hour := none, minute := 0,
    second := 0 }

/-!  ## Step-level lemmas about the loop body -/

theorem step1_gsm (s : SysState) (e : TickEnv) :
    (step1 s e).1.gsm_connected = s.gsm_connected := by
  unfold step1; split <;> rfl

theorem step1_anchor (s : SysState) (e : TickEnv) :
    (step1 s e).1.last_location_sent_ms = s.last_location_sent_ms := by
  unfold step1; split <;> rfl

theorem step1_fix_mono (s : SysState) (e : TickEnv)
    (h : s.gps_fix_acquired = true) :
    (step1 s e).1.gps_fix_acquired = true := by
  unfold step1; split <;> simp [h]

theorem step1_kinds (s : SysState) (e : TickEnv) :
    ∀ c ∈ (step1 s e).2, c.kind = SmsKind.fixAcquired := by
  unfold step1
  split
  · split <;> simp_all
  · simp

theorem step1_latched (s : SysState) (e : TickEnv)
    (h : s.gps_fix_acquired = false) (hft : e.gps.fix_type ≥ 2)
    (hv : has_valid_gps_data e.gps = true) :
    step1 s e =
      ({ s with gps_fix_acquired := true },
       if s.gsm_connected then
         [{ kind := .fixAcquired, number := ADMIN_NUMBER, message := fixMsg }]
       else []) := by
  unfold step1
  simp [h, hv, hft]

theorem step2_fix (s : SysState) (e : TickEnv) :
    (step2 s e).1.gps_fix_acquired = s.gps_fix_acquired := by
  unfold step2
  split
  · split <;> rfl
  · rfl

theorem step2_kinds (s : SysState) (e : TickEnv) :
    ∀ c ∈ (step2 s e).2.1, c.kind = SmsKind.online := by
  unfold step2
  split
  · split <;> simp_all
  · simp

theorem step2_skip_connected (s : SysState) (e : TickEnv)
    (h : s.gsm_connected = true) : step2 s e = (s, [], false) := by
  unfold step2; simp [h]

theorem step2_gsm_mono (s : SysState) (e : TickEnv)
    (h : s.gsm_connected = true) :
    (step2 s e).1.gsm_connected = true ∧ (step2 s e).2.2 = false := by
  rw [step2_skip_connected s e h]
  exact ⟨h, rfl⟩

theorem step2_anchor_or (s : SysState) (e : TickEnv) :
    ((step2 s e).2.1 = [] ∧
       (step2 s e).1.last_location_sent_ms = s.last_location_sent_ms) ∨
    ((step2 s e).2.1 =
        [{ kind := .online, number := ADMIN_NUMBER, message := onlineMsg }] ∧
       (step2 s e).1.last_location_sent_ms = e.now) := by
  unfold step2
  split
  · split
    · right; exact ⟨rfl, rfl⟩
    · left; exact ⟨rfl, rfl⟩
  · left; exact ⟨rfl, rfl⟩

theorem step3_gsm (s : SysState) (e : TickEnv) :
    (step3 s e).1.gsm_connected = s.gsm_connected := by
  unfold step3; split <;> rfl

theorem step3_fix (s : SysState) (e : TickEnv) :
    (step3 s e).1.gps_fix_acquired = s.gps_fix_acquired := by
  unfold step3; split <;> rfl

theorem step3_kinds (s : SysState) (e : TickEnv) :
    ∀ c ∈ (step3 s e).2, c.kind = SmsKind.periodic := by
  unfold step3
  split <;> simp_all

theorem step3_anchor_or (s : SysState) (e : TickEnv) :
    ((step3 s e).2 = [] ∧ (step3 s e).1 = s) ∨
    ((step3 s e).2 =
        [{ kind := .periodic, number := ADMIN_NUMBER,
           message := get_current_location_string e.gps }] ∧
       (step3 s e).1.last_location_sent_ms = e.now) := by
  unfold step3
  split
  · right; exact ⟨rfl, rfl⟩
  · left; exact ⟨rfl, rfl⟩

theorem step3_empty_of (s : SysState) (e : TickEnv)
    (h : ¬ e.now - s.last_location_sent_ms ≥ LOCATION_INTERVAL_MS) :
    (step3 s e).2 = [] ∧ (step3 s e).1 = s := by
  unfold step3
  simp [h]

theorem step4_kinds (e : TickEnv) : ∀ c ∈ step4 e, c.kind = SmsKind.reply := by
  unfold step4
  cases e.inbound with
  | none => simp
  | some r =>
    split
    · split <;> simp_all
    · simp

theorem step4_eq (e : TickEnv) (r : String) (h : e.inbound = some r)
    (h1 : pyIn "+CMT:" r = true)
    (h2 : pyIn "location" (strLower r) = true) :
    step4 e =
      [{ kind := .reply, number := ADMIN_NUMBER,
         message := get_current_location_string e.gps }] := by
  unfold step4
  rw [h]
  simp [h1, h2]

theorem step5_kinds (e : TickEnv) : ∀ c ∈ step5 e, c.kind = SmsKind.test := by
  unfold step5
  cases e.cmd with
  | none => simp
  | some c => split <;> simp_all

/-!  ## Lemmas about the modem-side loops -/

theorem strAppend_assoc (a b c : String) : a ++ b ++ c = a ++ (b ++ c) := by
  cases a with
  | mk la =>
    cases b with
    | mk lb =>
      cases c with
      | mk lc => exact congrArg String.mk (List.append_assoc la lb lc)

/-- If `send_at_command` never sees a pending chunk, the collected
response is the empty string. -/
theorem send_at_command_all_none :
    ∀ stream fuel, (∀ x ∈ stream, x = none) →
      send_at_command fuel stream = "" := by
  intro stream
  induction stream with
  | nil => intro fuel _; cases fuel <;> rfl
  | cons x rest ih =>
    intro fuel h
    have hx := h x (List.mem_cons_self x rest)
    subst hx
    cases fuel with
    | zero => rfl
    | succ n => exact ih n fun y hy => h y (List.mem_cons_of_mem _ hy)

/-- All text accumulated during a run of the prompt/confirmation loops,
in arrival order. -/
def joinChunks : List (Option String) → String
  | [] => ""
  | none :: t => joinChunks t
  | some c :: t => c ++ joinChunks t

/-- If the prompt loop reports the prompt, the prompt character really
occurred in the accumulated response text. -/
theorem promptLoop_sound :
    ∀ stream fuel acc, promptLoop fuel acc stream = true →
      pyIn ">" (acc ++ joinChunks stream) = true := by
  intro stream
  induction stream with
  | nil =>
    intro fuel acc h
    cases fuel <;> simp [promptLoop] at h
  | cons x rest ih =>
    intro fuel acc h
    cases fuel with
    | zero => simp [promptLoop] at h
    | succ n =>
      cases x with
      | none => simpa [joinChunks] using ih n acc h
      | some c =>
        rw [joinChunks, ← strAppend_assoc]
        simp only [promptLoop] at h
        split at h
        · exact pyIn_append _ _ _ (by assumption)
        · exact ih n (acc ++ c) h

/-- If the prompt loop times out without a prompt, `send_sms` writes the
two command lines followed by exactly the ESC cancel byte, and fails. -/
theorem send_sms_prompt_timeout (number message : String)
    (ps cs : List (Option String)) (h : promptLoop 100 "" ps = false) :
    send_sms true number message ps cs =
      { result := false,
        writes := [.cmd "AT+CMGF=1", .cmd ("AT+CMGS=\"" ++ number ++ "\""),
                   .esc] } := by
  unfold send_sms
  simp [h]

/-- A run whose outcome is `sent` has a success marker in the accumulated
confirmation text at the moment of decision. -/
theorem confLoopT_sent_marker :
    ∀ stream fuel acc, (confLoopT fuel acc stream).1 = ConfResult.sent →
      pyIn "+CMGS:" (confLoopT fuel acc stream).2 = true ∨
        pyIn "OK" (confLoopT fuel acc stream).2 = true := by
  intro stream
  induction stream with
  | nil =>
    intro fuel acc h
    cases fuel <;> simp [confLoopT] at h
  | cons x rest ih =>
    intro fuel acc h
    cases fuel with
    | zero => simp [confLoopT] at h
    | succ n =>
      cases x with
      | none => exact ih n acc h
      | some c =>
        simp only [confLoopT] at h ⊢
        split at h
        · rename_i hcond
          have hd := hcond
          rw [Bool.or_eq_true] at hd
          simpa [hcond] using hd
        · split at h
          · simp at h
          · rename_i h1 h2
            simpa [h1, h2] using ih n (acc ++ c) h

/-- A run whose outcome is `rejected` saw `ERROR` in the accumulated
confirmation text with neither success marker present at that moment. -/
theorem confLoopT_rejected_marker :
    ∀ stream fuel acc, (confLoopT fuel acc stream).1 = ConfResult.rejected →
      pyIn "ERROR" (confLoopT fuel acc stream).2 = true ∧
        pyIn "+CMGS:" (confLoopT fuel acc stream).2 = false ∧
        pyIn "OK" (confLoopT fuel acc stream).2 = false := by
  intro stream
  induction stream with
  | nil =>
    intro fuel acc h
    cases fuel <;> simp [confLoopT] at h
  | cons x rest ih =>
    intro fuel acc h
    cases fuel with
    | zero => simp [confLoopT] at h
    | succ n =>
      cases x with
      | none => exact ih n acc h
      | some c =>
        simp only [confLoopT] at h ⊢
        split at h
        · simp at h
        · split at h
          · rename_i h1 h2
            simp only [Bool.or_eq_true, not_or, Bool.not_eq_true] at h1
            simp [h1.1, h1.2, h2]
          · rename_i h1 h2
            simpa [h1, h2] using ih n (acc ++ c) h

/-- A run whose outcome is timeout never saw a success or error marker:
none occurs in the whole accumulated text, provided none was present
initially. -/
theorem confLoopT_timeout_marker :
    ∀ stream fuel acc, pyIn "+CMGS:" acc = false → pyIn "OK" acc = false →
      pyIn "ERROR" acc = false →
      (confLoopT fuel acc stream).1 = ConfResult.timedOut →
      pyIn "+CMGS:" (confLoopT fuel acc stream).2 = false ∧
        pyIn "OK" (confLoopT fuel acc stream).2 = false ∧
        pyIn "ERROR" (confLoopT fuel acc stream).2 = false := by
  intro stream
  induction stream with
  | nil =>
    intro fuel acc ha hb hc _
    cases fuel <;> exact ⟨ha, hb, hc⟩
  | cons x rest ih =>
    intro fuel acc ha hb hc h
    cases fuel with
    | zero => exact ⟨ha, hb, hc⟩
    | succ n =>
      cases x with
      | none => exact ih n acc ha hb hc h
      | some c =>
        simp only [confLoopT] at h ⊢
        split at h
        · simp at h
        · split at h
          · simp at h
          · rename_i h1 h2
            simp only [Bool.or_eq_true, not_or, Bool.not_eq_true] at h1
            rw [Bool.not_eq_true] at h2
            simpa [h1, h2] using ih n (acc ++ c) h1.1 h1.2 h2 h

/-- Once `gps_fix_acquired` is set, a tick keeps it set. -/
theorem tick_fix_mono_helper (s : SysState) (e : TickEnv)
    (h : s.gps_fix_acquired = true) :
    (tick s e).state.gps_fix_acquired = true := by
  have h1 := step1_fix_mono s e h
  have h2 := step2_fix (step1 s e).1 e
  have h3 := step3_fix (step2 (step1 s e).1 e).1 e
  show (step3 (step2 (step1 s e).1 e).1 e).1.gps_fix_acquired = true
  rw [h3, h2, h1]

/-- Once `gsm_connected` is set, a tick keeps it set and never issues the
registration query. -/
theorem tick_gsm_mono_helper (s : SysState) (e : TickEnv)
    (h : s.gsm_connected = true) :
    (tick s e).state.gsm_connected = true ∧ (tick s e).cregQueried = false := by
  have h1 := step1_gsm s e
  have h2 := step2_gsm_mono (step1 s e).1 e (by rw [h1, h])
  have h3 := step3_gsm (step2 (step1 s e).1 e).1 e
  constructor
  · show (step3 (step2 (step1 s e).1 e).1 e).1.gsm_connected = true
    rw [h3, h2.1]
  · show (step2 (step1 s e).1 e).2.2 = false
    exact h2.2

/-- The calls of a tick decompose as the calls of the five steps, in order. -/
theorem tick_sms_decomp (s : SysState) (e : TickEnv) :
    (tick s e).sms =
      (step1 s e).2 ++ (step2 (step1 s e).1 e).2.1 ++
        (step3 (step2 (step1 s e).1 e).1 e).2 ++ step4 e ++ step5 e := rfl

theorem countP_fix_step2 (s : SysState) (e : TickEnv) :
    List.countP (fun c => c.kind == SmsKind.fixAcquired) (step2 s e).2.1 = 0 := by
  rw [List.countP_eq_zero]
  intro c hc
  rw [step2_kinds s e c hc]
  decide

theorem countP_fix_step3 (s : SysState) (e : TickEnv) :
    List.countP (fun c => c.kind == SmsKind.fixAcquired) (step3 s e).2 = 0 := by
  rw [List.countP_eq_zero]
  intro c hc
  rw [step3_kinds s e c hc]
  decide

theorem countP_fix_step4 (e : TickEnv) :
    List.countP (fun c => c.kind == SmsKind.fixAcquired) (step4 e) = 0 := by
  rw [List.countP_eq_zero]
  intro c hc
  rw [step4_kinds e c hc]
  decide

theorem countP_fix_step5 (e : TickEnv) :
    List.countP (fun c => c.kind == SmsKind.fixAcquired) (step5 e) = 0 := by
  rw [List.countP_eq_zero]
  intro c hc
  rw [step5_kinds e c hc]
  decide

/-!  ## Claims -/

/-- C1 counterexample: `has_valid_gps_data` does not wait for fix quality
≥ 2D — a decoder state with fix type 1 (no fix) but non-null, non-zero
coordinates already satisfies it — and it does not latch: it is false
again on a decoder state whose latitude has degraded to zero. -/
theorem has_valid_gps_data_ignores_fix_quality :
    (gpsExample 1).fix_type < 2 ∧
    has_valid_gps_data (gpsExample 1) = true ∧
    has_valid_gps_data { gpsExample 1 with lat := some 0 } = false := by
  decide

/-- C1 (amended): `has_valid_gps_data` is a pure predicate of the current
decoder state, true iff latitude and longitude are both non-null and
non-zero, with no fix-quality condition and no latching; the fix-quality
≥ 2D condition and the monotone behaviour live in the main loop flag
`gps_fix_acquired`, which is set on the first tick where
`fix_type ≥ 2` and `has_valid_gps_data` hold, and never reverts on any
later tick, whatever the decoder then reports. -/
theorem has_valid_gps_data_characterization :
    (∀ g : GpsState, has_valid_gps_data g = true ↔
      ((∃ la, g.lat = some la ∧ la ≠ 0) ∧ (∃ lo, g.lon = some lo ∧ lo ≠ 0))) ∧
    (∀ (s : SysState) (e : TickEnv), s.gps_fix_acquired = true →
      (tick s e).state.gps_fix_acquired = true) ∧
    (∀ (s : SysState) (e : TickEnv), s.gps_fix_acquired = false →
      e.gps.fix_type ≥ 2 → has_valid_gps_data e.gps = true →
      (tick s e).state.gps_fix_acquired = true) := by
  refine ⟨?_, ?_, ?_⟩
  · intro g
    rcases hg : g.lat with _ | la <;> rcases hg2 : g.lon with _ | lo <;>
      simp [has_valid_gps_data, hg, hg2, bne_iff_ne]
  · intro s e h
    have h1 := step1_fix_mono s e h
    have h2 := step2_fix (step1 s e).1 e
    have h3 := step3_fix (step2 (step1 s e).1 e).1 e
    show (step3 (step2 (step1 s e).1 e).1 e).1.gps_fix_acquired = true
    rw [h3, h2, h1]
  · intro s e h hft hv
    have h1 : (step1 s e).1.gps_fix_acquired = true := by
      rw [step1_latched s e h hft hv]
    have h2 := step2_fix (step1 s e).1 e
    have h3 := step3_fix (step2 (step1 s e).1 e).1 e
    show (step3 (step2 (step1 s e).1 e).1 e).1.gps_fix_acquired = true
    rw [h3, h2, h1]

/-- C1 witness: on a fresh state and a 2D-fix decoder state the flag is
set by the tick. -/
theorem has_valid_gps_data_characterization_witness :
    (tick ⟨false, false, true, 0, 0⟩
        ⟨0, gpsExample 2, "", none, none⟩).state.gps_fix_acquired = true :=
  has_valid_gps_data_characterization.2.2 ⟨false, false, true, 0, 0⟩
    ⟨0, gpsExample 2, "", none, none⟩ rfl (by decide) (by decide)

/-- C2 counterexample: the code classifies by substring containment, not
exact match: the well-formed status echo `+CREG: 0,10` differs from both
registered codes yet is classified registered (it contains `+CREG: 0,1`),
where the claim requires unregistered. -/
theorem classifyCreg_substring_not_exact :
    classifyCreg "+CREG: 0,10" = RegResult.registered ∧
    "+CREG: 0,10" ≠ "+CREG: 0,1" ∧ "+CREG: 0,10" ≠ "+CREG: 0,5" ∧
    pyIn "+CREG:" "+CREG: 0,10" = true := by
  decide

/-- C2 (amended): the response is classified registered iff it contains
`+CREG: 0,1` or `+CREG: 0,5` as a substring; otherwise unregistered iff
it contains `+CREG:`; otherwise nothing is concluded (unknown).  An empty
response concludes nothing and in particular is never registered. -/
theorem classifyCreg_characterization (r : String) :
    (classifyCreg r = RegResult.registered ↔
      (pyIn "+CREG: 0,1" r = true ∨ pyIn "+CREG: 0,5" r = true)) ∧
    (classifyCreg r = RegResult.unregistered ↔
      (pyIn "+CREG: 0,1" r = false ∧ pyIn "+CREG: 0,5" r = false ∧
        pyIn "+CREG:" r = true)) ∧
    (classifyCreg r = RegResult.unknown ↔
      (pyIn "+CREG: 0,1" r = false ∧ pyIn "+CREG: 0,5" r = false ∧
        pyIn "+CREG:" r = false)) ∧
    classifyCreg "" = RegResult.unknown := by
  refine ⟨?_, ?_, ?_, by decide⟩ <;>
  · unfold classifyCreg
    cases h1 : pyIn "+CREG: 0,1" r <;> cases h2 : pyIn "+CREG: 0,5" r <;>
      cases h3 : pyIn "+CREG:" r <;> simp [h1, h2, h3]

/-- C8: `check_gsm_module` succeeds exactly when the collected `AT`
response contains `OK`; a channel that never delivers bytes within the
bound yields the empty response (a valid result, not an error) and the
probe fails. -/
theorem check_gsm_module_iff_ok (stream : List (Option String)) :
    (check_gsm_module stream = pyIn "OK" (send_at_command 20 stream)) ∧
    ((∀ x ∈ stream, x = none) →
      send_at_command 20 stream = "" ∧ check_gsm_module stream = false) := by
  refine ⟨rfl, fun h => ?_⟩
  have he := send_at_command_all_none stream 20 h
  refine ⟨he, ?_⟩
  unfold check_gsm_module
  rw [he]
  decide

/-- C8 witness: a concrete silent channel. -/
theorem check_gsm_module_iff_ok_witness :
    send_at_command 20 [none, none] = "" ∧
    check_gsm_module [none, none] = false :=
  (check_gsm_module_iff_ok [none, none]).2 (by decide)

/-- C10: `send_sms` with the connected flag unset fails immediately and
writes nothing at all to the modem channel, whatever the arguments and
whatever bytes the channel would have delivered. -/
theorem send_sms_disconnected_noop (number message : String)
    (promptStream confStream : List (Option String)) :
    send_sms false number message promptStream confStream =
      { result := false, writes := [] } := rfl

theorem strEmpty_append (s : String) : "" ++ s = s := by
  cases s with
  | mk l => rfl

/-- C3: `send_sms` writes the message body only if the prompt loop
observed the prompt (and the prompt loop reports success only when >
really occurred in the accumulated response text); if the 5-second prompt
bound elapses without a prompt, the writes are exactly the two command
lines followed by the single ESC (0x1B) cancel byte — no message bytes —
and the call fails. -/
theorem send_sms_prompt_gate (number message : String)
    (ps cs : List (Option String)) :
    (promptLoop 100 "" ps = false →
      send_sms true number message ps cs =
        { result := false,
          writes := [.cmd "AT+CMGF=1", .cmd ("AT+CMGS=\"" ++ number ++ "\""),
                     .esc] }) ∧
    (∀ m2, ModemWrite.msgBody m2 ∈ (send_sms true number message ps cs).writes →
      promptLoop 100 "" ps = true) ∧
    (promptLoop 100 "" ps = true → pyIn ">" (joinChunks ps) = true) := by
  refine ⟨send_sms_prompt_timeout number message ps cs, ?_, ?_⟩
  · intro m2 hm
    cases hp : promptLoop 100 "" ps
    · rw [send_sms_prompt_timeout number message ps cs hp] at hm
      simp at hm
    · rfl
  · intro hp
    have h := promptLoop_sound ps 100 "" hp
    rwa [strEmpty_append] at h

/-- C3 witness: a silent prompt channel produces exactly the cancel
write. -/
theorem send_sms_prompt_gate_witness :
    send_sms true "+9186********" "hello" [none] [] =
      { result := false,
        writes := [.cmd "AT+CMGF=1",
                   .cmd ("AT+CMGS=\"" ++ "+9186********" ++ "\""), .esc] } :=
  (send_sms_prompt_gate "+9186********" "hello" [none] []).1 (by rfl)

/-- C9: in the confirmation phase, a `sent` outcome means a success
marker (`+CMGS:` or bare `OK`) was in the accumulated confirmation text;
a `rejected` outcome means `ERROR` was present with no success marker at
the decision point; a timeout means neither marker appeared in anything
accumulated within the 10-second bound; and success is checked before the
error marker: a chunk making both present yields `sent`. -/
theorem sms_confirmation_phase (fuel : Nat) (stream : List (Option String)) :
    ((confLoopT fuel "" stream).1 = ConfResult.sent →
      pyIn "+CMGS:" (confLoopT fuel "" stream).2 = true ∨
        pyIn "OK" (confLoopT fuel "" stream).2 = true) ∧
    ((confLoopT fuel "" stream).1 = ConfResult.rejected →
      pyIn "ERROR" (confLoopT fuel "" stream).2 = true ∧
        pyIn "+CMGS:" (confLoopT fuel "" stream).2 = false ∧
        pyIn "OK" (confLoopT fuel "" stream).2 = false) ∧
    ((confLoopT fuel "" stream).1 = ConfResult.timedOut →
      pyIn "+CMGS:" (confLoopT fuel "" stream).2 = false ∧
        pyIn "OK" (confLoopT fuel "" stream).2 = false ∧
        pyIn "ERROR" (confLoopT fuel "" stream).2 = false) ∧
    (∀ (n : Nat) (acc c : String) (rest : List (Option String)),
      (pyIn "+CMGS:" (acc ++ c) = true ∨ pyIn "OK" (acc ++ c) = true) →
      (confLoopT (n + 1) acc (some c :: rest)).1 = ConfResult.sent) := by
  refine ⟨confLoopT_sent_marker stream fuel "",
          confLoopT_rejected_marker stream fuel "",
          confLoopT_timeout_marker stream fuel "" (by decide) (by decide)
            (by decide), ?_⟩
  intro n acc c rest h
  rcases h with h | h <;> simp [confLoopT, h]

/-- C9 witness: a chunk containing both `ERROR` and `OK` is classified as
success (success is checked first). -/
theorem sms_confirmation_phase_witness :
    (confLoopT 5 "" [some "ERROR OK"]).1 = ConfResult.sent :=
  (sms_confirmation_phase 5 [some "ERROR OK"]).2.2.2 4 "" "ERROR OK" []
    (Or.inr (by decide))

/-- C4: in every reachable state, the two flags move only from unset to
set: a tick with `gsm_connected` set keeps it set and never issues the
`AT+CREG?` query, and a tick with `gps_fix_acquired` set keeps it set,
whatever the decoder or modem deliver. -/
theorem tick_flags_monotone (s : SysState) (e : TickEnv) :
    (s.gsm_connected = true →
      (tick s e).state.gsm_connected = true ∧
        (tick s e).cregQueried = false) ∧
    (s.gps_fix_acquired = true →
      (tick s e).state.gps_fix_acquired = true) :=
  ⟨tick_gsm_mono_helper s e, tick_fix_mono_helper s e⟩

/-- C4 witness: a tick on a fully-set state. -/
theorem tick_flags_monotone_witness :
    (tick ⟨true, true, true, 0, 0⟩
        ⟨0, gpsExample 1, "", none, none⟩).state.gsm_connected = true ∧
    (tick ⟨true, true, true, 0, 0⟩
        ⟨0, gpsExample 1, "", none, none⟩).cregQueried = false :=
  (tick_flags_monotone ⟨true, true, true, 0, 0⟩
    ⟨0, gpsExample 1, "", none, none⟩).1 rfl

/-- States and environments for the concrete fix/registration runs. -/
def trackerStart : SysState :=
  { gsm_connected := false, gps_fix_acquired := false,
    gsm_initialized := true, last_location_sent_ms := 0,
    last_gsm_check_ms := 0 }

def envFixOnly : TickEnv :=
  { now := 10000, gps := gpsExample 2, creg := "", inbound := none,
    cmd := none }

def envRegHome : TickEnv :=
  { now := 20000, gps := gpsExample 2, creg := "+CREG: 0,1\r\n\r\nOK\r\n",
    inbound := none, cmd := none }

def envQuiet : TickEnv :=
  { now := 30000, gps := gpsExample 2, creg := "", inbound := none,
    cmd := none }

/-- C6 counterexample: with a valid 2D fix in the decoder state first and
a home-registered `AT+CREG?` response afterwards, the fix transition is
consumed while unregistered, so the registration tick and the tick after
it attempt zero fix-acquired sends (the registration tick sends only the
online notification).  Moreover even in the order where a fix-acquired
SMS is attempted, its body is the fixed text, which does not contain the
formatted location snapshot. -/
theorem fix_before_registration_no_notification :
    ((gpsExample 2).fix_type ≥ 2 ∧ has_valid_gps_data (gpsExample 2) = true) ∧
    classifyCreg envRegHome.creg = RegResult.registered ∧
    (tick trackerStart envFixOnly).state.gps_fix_acquired = true ∧
    (tick trackerStart envFixOnly).sms = [] ∧
    (tick (tick trackerStart envFixOnly).state envRegHome).state.gsm_connected
      = true ∧
    (tick (tick trackerStart envFixOnly).state envRegHome).sms =
      [{ kind := SmsKind.online, number := ADMIN_NUMBER,
         message := onlineMsg }] ∧
    List.countP (fun c => c.kind == SmsKind.fixAcquired)
      (tick (tick trackerStart envFixOnly).state envRegHome).sms = 0 ∧
    List.countP (fun c => c.kind == SmsKind.fixAcquired)
      (tick (tick (tick trackerStart envFixOnly).state envRegHome).state
        envQuiet).sms = 0 ∧
    (tick ⟨true, false, true, 0, 0⟩ envFixOnly).sms =
      [{ kind := SmsKind.fixAcquired, number := ADMIN_NUMBER,
         message := fixMsg }] ∧
    pyIn (get_current_location_string (gpsExample 2)) fixMsg = false := by
  decide

/-- C6 (amended): a fix-acquired SMS is attempted exactly once, at the
tick where the fix transition fires while the network is already
registered, and its body is the fixed text `GPS fix acquired. Vehicle
tracking active.` (not the location snapshot); if the network is not yet
registered at that tick, or the fix flag is already set, the tick
attempts no fix-acquired SMS at all — so in the fix-before-registration
order none is ever attempted. -/
theorem fix_acquired_notification (s : SysState) (e : TickEnv) :
    (s.gsm_connected = true → s.gps_fix_acquired = false →
      e.gps.fix_type ≥ 2 → has_valid_gps_data e.gps = true →
      List.countP (fun c => c.kind == SmsKind.fixAcquired) (tick s e).sms
          = 1 ∧
       ∀ c ∈ (tick s e).sms, c.kind = SmsKind.fixAcquired →
         c.number = ADMIN_NUMBER ∧ c.message = fixMsg) ∧
    (s.gsm_connected = false →
      List.countP (fun c => c.kind == SmsKind.fixAcquired) (tick s e).sms
        = 0) ∧
    (s.gps_fix_acquired = true →
      List.countP (fun c => c.kind == SmsKind.fixAcquired) (tick s e).sms
        = 0) := by
  refine ⟨fun hc hf hft hv => ?_, fun hc => ?_, fun hf => ?_⟩
  · have h1 : (step1 s e).2 =
        [{ kind := .fixAcquired, number := ADMIN_NUMBER, message := fixMsg }] := by
      rw [step1_latched s e hf hft hv]
      simp [hc]
    constructor
    · rw [tick_sms_decomp, List.countP_append, List.countP_append,
        List.countP_append, List.countP_append, h1, countP_fix_step2,
        countP_fix_step3, countP_fix_step4, countP_fix_step5]
      decide
    · intro c hcm hkind
      rw [tick_sms_decomp, h1] at hcm
      simp only [List.mem_append] at hcm
      rcases hcm with ((((hm | hm) | hm) | hm) | hm)
      · simp only [List.mem_singleton] at hm
        subst hm
        exact ⟨rfl, rfl⟩
      · have hk := step2_kinds (step1 s e).1 e c hm
        rw [hk] at hkind
        simp at hkind
      · have hk := step3_kinds (step2 (step1 s e).1 e).1 e c hm
        rw [hk] at hkind
        simp at hkind
      · have hk := step4_kinds e c hm
        rw [hk] at hkind
        simp at hkind
      · have hk := step5_kinds e c hm
        rw [hk] at hkind
        simp at hkind
  · have h1 : (step1 s e).2 = [] := by
      unfold step1
      split <;> simp [hc]
    rw [tick_sms_decomp, List.countP_append, List.countP_append,
      List.countP_append, List.countP_append, h1, countP_fix_step2,
      countP_fix_step3, countP_fix_step4, countP_fix_step5]
    decide
  · have h1 : (step1 s e).2 = [] := by
      simp [step1, hf]
    rw [tick_sms_decomp, List.countP_append, List.countP_append,
      List.countP_append, List.countP_append, h1, countP_fix_step2,
      countP_fix_step3, countP_fix_step4, countP_fix_step5]
    decide

/-- C6 witness: a registered state acquiring its first fix attempts the
single fix-acquired SMS. -/
theorem fix_acquired_notification_witness :
    List.countP (fun c => c.kind == SmsKind.fixAcquired)
      (tick ⟨true, false, true, 0, 0⟩ envFixOnly).sms = 1 :=
  ((fix_acquired_notification ⟨true, false, true, 0, 0⟩ envFixOnly).1
    rfl rfl (by decide) (by decide)).1

/-- C7: a tick whose inbound modem chunk contains `+CMT:` and whose text
case-insensitively contains `location` makes exactly one reply call, to
the fixed administrator number, with the current formatted location
snapshot as body; the recipient and body depend only on the decoder
state, not on anything in the inbound text (no sender is extracted). -/
theorem inbound_location_reply (s : SysState) (e : TickEnv) (r : String)
    (h : e.inbound = some r) (h1 : pyIn "+CMT:" r = true)
    (h2 : pyIn "location" (strLower r) = true) :
    (tick s e).sms.filter (fun c => c.kind == SmsKind.reply) =
      [{ kind := SmsKind.reply, number := ADMIN_NUMBER,
         message := get_current_location_string e.gps }] := by
  rw [tick_sms_decomp, step4_eq e r h h1 h2]
  rw [List.filter_append, List.filter_append, List.filter_append,
    List.filter_append]
  have f1 : (step1 s e).2.filter (fun c => c.kind == SmsKind.reply) = [] := by
    rw [List.filter_eq_nil_iff]
    intro c hc
    rw [step1_kinds s e c hc]
    decide
  have f2 : (step2 (step1 s e).1 e).2.1.filter
      (fun c => c.kind == SmsKind.reply) = [] := by
    rw [List.filter_eq_nil_iff]
    intro c hc
    rw [step2_kinds (step1 s e).1 e c hc]
    decide
  have f3 : (step3 (step2 (step1 s e).1 e).1 e).2.filter
      (fun c => c.kind == SmsKind.reply) = [] := by
    rw [List.filter_eq_nil_iff]
    intro c hc
    rw [step3_kinds (step2 (step1 s e).1 e).1 e c hc]
    decide
  have f5 : (step5 e).filter (fun c => c.kind == SmsKind.reply) = [] := by
    rw [List.filter_eq_nil_iff]
    intro c hc
    rw [step5_kinds e c hc]
    decide
  rw [f1, f2, f3, f5]
  simp
  decide

/-- C7 witness: a concrete inbound location request. -/
theorem inbound_location_reply_witness :
    (tick trackerStart
        ⟨40000, gpsExample 2, "", some "+CMT: \"+911234\"\r\nsend Location",
         none⟩).sms.filter (fun c => c.kind == SmsKind.reply) =
      [{ kind := SmsKind.reply, number := ADMIN_NUMBER,
         message := get_current_location_string (gpsExample 2) }] :=
  inbound_location_reply trackerStart
    ⟨40000, gpsExample 2, "", some "+CMT: \"+911234\"\r\nsend Location", none⟩
    "+CMT: \"+911234\"\r\nsend Location" rfl (by decide) (by decide)

/-- If both step 2 and step 3 emitted nothing, every call of the tick
comes from steps 1, 4 or 5. -/
theorem mem_other_kinds (s : SysState) (e : TickEnv)
    (hl2 : (step2 (step1 s e).1 e).2.1 = [])
    (hl3 : (step3 (step2 (step1 s e).1 e).1 e).2 = []) :
    ∀ c ∈ (tick s e).sms,
      c.kind = SmsKind.fixAcquired ∨ c.kind = SmsKind.reply ∨
        c.kind = SmsKind.test := by
  intro c hc
  rw [tick_sms_decomp, hl2, hl3] at hc
  simp only [List.append_nil, List.mem_append] at hc
  rcases hc with (hm | hm) | hm
  · exact Or.inl (step1_kinds s e c hm)
  · exact Or.inr (Or.inl (step4_kinds e c hm))
  · exact Or.inr (Or.inr (step5_kinds e c hm))

/-- A tick whose report interval has not yet elapsed relative to the
stored anchor attempts no periodic send. -/
theorem tick_no_periodic (st : SysState) (e2 : TickEnv)
    (h : e2.now - st.last_location_sent_ms < LOCATION_INTERVAL_MS) :
    ∀ c ∈ (tick st e2).sms, c.kind ≠ SmsKind.periodic := by
  intro c hc
  have h1 := step1_anchor st e2
  rcases step2_anchor_or (step1 st e2).1 e2 with ⟨_, ha2⟩ | ⟨_, ha2⟩
  · have hstep3 : (step3 (step2 (step1 st e2).1 e2).1 e2).2 = [] := by
      refine (step3_empty_of _ _ ?_).1
      rw [ha2, h1]
      exact not_le.mpr h
    rw [tick_sms_decomp, hstep3] at hc
    simp only [List.append_nil, List.mem_append] at hc
    rcases hc with ((hm | hm) | hm) | hm
    · rw [step1_kinds st e2 c hm]; decide
    · rw [step2_kinds (step1 st e2).1 e2 c hm]; decide
    · rw [step4_kinds e2 c hm]; decide
    · rw [step5_kinds e2 c hm]; decide
  · have hstep3 : (step3 (step2 (step1 st e2).1 e2).1 e2).2 = [] := by
      refine (step3_empty_of _ _ ?_).1
      rw [ha2]
      unfold LOCATION_INTERVAL_MS
      omega
    rw [tick_sms_decomp, hstep3] at hc
    simp only [List.append_nil, List.mem_append] at hc
    rcases hc with ((hm | hm) | hm) | hm
    · rw [step1_kinds st e2 c hm]; decide
    · rw [step2_kinds (step1 st e2).1 e2 c hm]; decide
    · rw [step4_kinds e2 c hm]; decide
    · rw [step5_kinds e2 c hm]; decide

/-- C5: within a tick, `last_location_sent_ms` is set to the tick time
exactly when the tick makes the online (registration) call or the
periodic call, and is left untouched by every other tick (fix-acquired
notifications, inbound replies, test sends).  The periodic branch sets it
on every attempt — the model does not even consult the `send_sms` result
— so after a periodic attempt no further periodic attempt happens until a
full report interval has elapsed, whatever the transport did. -/
theorem last_location_anchor_frame (s : SysState) (e : TickEnv) :
    ((∃ c ∈ (tick s e).sms,
        c.kind = SmsKind.online ∨ c.kind = SmsKind.periodic) →
      (tick s e).state.last_location_sent_ms = e.now) ∧
    ((∀ c ∈ (tick s e).sms,
        c.kind ≠ SmsKind.online ∧ c.kind ≠ SmsKind.periodic) →
      (tick s e).state.last_location_sent_ms = s.last_location_sent_ms) ∧
    (∀ e2 : TickEnv, (∃ c ∈ (tick s e).sms, c.kind = SmsKind.periodic) →
      e2.now - e.now < LOCATION_INTERVAL_MS →
      ∀ c ∈ (tick (tick s e).state e2).sms, c.kind ≠ SmsKind.periodic) := by
  refine ⟨?_, ?_, ?_⟩
  · rintro ⟨c, hc, hk⟩
    rcases step2_anchor_or (step1 s e).1 e with ⟨hl2, ha2⟩ | ⟨hl2, ha2⟩
    · rcases step3_anchor_or (step2 (step1 s e).1 e).1 e with
        ⟨hl3, hs3⟩ | ⟨hl3, ha3⟩
      · have hothers := mem_other_kinds s e hl2 hl3 c hc
        rcases hothers with h | h | h <;> rcases hk with hk | hk <;>
          (rw [h] at hk; exact absurd hk (by decide))
      · exact ha3
    · rcases step3_anchor_or (step2 (step1 s e).1 e).1 e with
        ⟨hl3, hs3⟩ | ⟨hl3, ha3⟩
      · show (step3 (step2 (step1 s e).1 e).1 e).1.last_location_sent_ms
          = e.now
        rw [hs3]
        exact ha2
      · exact ha3
  · intro hall
    rcases step2_anchor_or (step1 s e).1 e with ⟨hl2, ha2⟩ | ⟨hl2, ha2⟩
    · rcases step3_anchor_or (step2 (step1 s e).1 e).1 e with
        ⟨hl3, hs3⟩ | ⟨hl3, ha3⟩
      · show (step3 (step2 (step1 s e).1 e).1 e).1.last_location_sent_ms
          = s.last_location_sent_ms
        rw [hs3, ha2, step1_anchor]
      · have hmem : ({ kind := SmsKind.periodic,
                         number := ADMIN_NUMBER,
                         message := get_current_location_string e.gps }
              : SmsCall) ∈ (tick s e).sms := by
          rw [tick_sms_decomp, hl3]
          simp
        exact absurd rfl ((hall _ hmem).2)
    · have hmem : ({ kind := SmsKind.online,
                       number := ADMIN_NUMBER,
                       message := onlineMsg } : SmsCall) ∈ (tick s e).sms := by
        rw [tick_sms_decomp, hl2]
        simp
      exact absurd rfl ((hall _ hmem).1)
  · rintro e2 ⟨c, hc, hk⟩ hlt
    have hanchor : (tick s e).state.last_location_sent_ms = e.now := by
      rcases step3_anchor_or (step2 (step1 s e).1 e).1 e with
        ⟨hl3, hs3⟩ | ⟨hl3, ha3⟩
      · exfalso
        rw [tick_sms_decomp, hl3] at hc
        simp only [List.append_nil, List.mem_append] at hc
        rcases hc with ((hm | hm) | hm) | hm
        · rw [step1_kinds s e c hm] at hk; exact absurd hk (by decide)
        · rw [step2_kinds (step1 s e).1 e c hm] at hk
          exact absurd hk (by decide)
        · rw [step4_kinds e c hm] at hk; exact absurd hk (by decide)
        · rw [step5_kinds e c hm] at hk; exact absurd hk (by decide)
      · exact ha3
    refine tick_no_periodic (tick s e).state e2 ?_
    rw [hanchor]
    exact hlt

/-- C5 witness: the registration tick resets the anchor to the tick
time. -/
theorem last_location_anchor_frame_witness :
    (tick trackerStart envRegHome).state.last_location_sent_ms =
      envRegHome.now :=
  (last_location_anchor_frame trackerStart envRegHome).1
    ⟨{ kind := SmsKind.online, number := ADMIN_NUMBER, message := onlineMsg },
     by decide, Or.inl rfl⟩
